import Mathlib

/-!
Verification of the Dungeon Battle Simulator combat core (`src/dungeon_sim.py`).

The combat engine is embedded shallowly:

* Python machine integers are `ℤ`; Python floats appearing in stat formulas are
  exact decimal values here, so they are modelled as `ℚ` (every float operation the
  combat core performs — sums of small decimal constants, halving, multiplication of
  a small integer by `1.5` or `2.0` — is exact in binary floating point at these
  magnitudes, so the rational model agrees with the float semantics on all
  reachable values).
* Draws from the process-wide random generator become explicit inputs: each turn
  consumes one `TurnDraws` bundle (criticality draw, hero damage roll, enemy miss
  draw, enemy damage roll).  Quantifying over all streams covers every draw
  sequence the program can see.
* `battle_log` entries are modelled structurally as `Event` values carrying the
  narrated numeric content; wall-clock timestamps, the start banner and cosmetic
  blank/flavour lines are omitted as they carry no combat state.  The procedurally
  generated enemy display name is cosmetic (the spec notes it has no behavioral
  effect) and is likewise omitted from the `Enemy` record.
-/

/-- Python `int(x)` conversion: truncation toward zero, on exact rational values. -/
def pyInt (q : ℚ) : ℤ := if q < 0 then -⌊-q⌋ else ⌊q⌋

/-- The three valid hero classes (`Hero.VALID_CLASSES`), as an enumeration used by
the stat tables.  Validation of a raw class string happens in `validate_arguments`
below, which works on strings exactly like the source. -/
inductive HeroClass where
  | warrior
  | mage
  | rogue
deriving DecidableEq

/-- Source `Hero` (lines 15-86): identity, derived attributes and mutable health. -/
structure Hero where
  name : String
  hero_class : HeroClass
  level : ℤ
  hardcore_mode : Bool
  max_hp : ℤ
  current_hp : ℤ
  attack : ℤ
  defense : ℤ
  critical_chance : ℚ
deriving DecidableEq

/-- The `base_hp` table of `Hero._calculate_max_hp` (lines 34-38). -/
def base_hp : HeroClass → ℤ
  | .warrior => 150
  | .mage => 100
  | .rogue => 120

/-- The `base_attack` table of `Hero._calculate_attack` (lines 43-47). -/
def base_attack : HeroClass → ℤ
  | .warrior => 25
  | .mage => 35
  | .rogue => 30

/-- The `base_defense` table of `Hero._calculate_defense` (lines 52-56). -/
def base_defense : HeroClass → ℤ
  | .warrior => 20
  | .mage => 10
  | .rogue => 15

/-- The `base_crit` table of `Hero._calculate_critical_chance` (lines 61-65). -/
def base_crit : HeroClass → ℚ
  | .warrior => 0.15
  | .mage => 0.25
  | .rogue => 0.35

/-- Source `Hero._calculate_max_hp` (lines 32-39). -/
def calculate_max_hp (c : HeroClass) (level : ℤ) : ℤ :=
  base_hp c + level * 10

/-- Source `Hero._calculate_attack` (lines 41-48). -/
def calculate_attack (c : HeroClass) (level : ℤ) : ℤ :=
  base_attack c + level * 2

/-- Source `Hero._calculate_defense` (lines 50-57). -/
def calculate_defense (c : HeroClass) (level : ℤ) : ℤ :=
  base_defense c + level * 1

/-- Source `Hero._calculate_critical_chance` (lines 59-66). -/
def calculate_critical_chance (c : HeroClass) (level : ℤ) : ℚ :=
  min (base_crit c + (level : ℚ) * 0.002) 0.75

/-- Source `Hero.__init__` (lines 20-30): stores the inputs and derives the attributes;
`current_hp` starts at `max_hp`. -/
def mkHero (name : String) (hero_class : HeroClass) (level : ℤ)
    (hardcore_mode : Bool) : Hero :=
  { name := name
    hero_class := hero_class
    level := level
    hardcore_mode := hardcore_mode
    max_hp := calculate_max_hp hero_class level
    current_hp := calculate_max_hp hero_class level
    attack := calculate_attack hero_class level
    defense := calculate_defense hero_class level
    critical_chance := calculate_critical_chance hero_class level }

/-- Source `Hero.attack_enemy` (lines 68-76): the criticality draw
(`random.random() < self.critical_chance`) and the damage roll
(`random.randint(-5, 10)`) are explicit inputs.  `int(damage * 2.0)` is
`pyInt` of the exact product.  Returns `(damage, is_critical)`. -/
def Hero.attack_enemy (h : Hero) (is_critical : Bool) (roll : ℤ) : ℤ × Bool :=
  let damage := h.attack + roll
  (if is_critical then pyInt ((damage : ℚ) * 2.0) else damage, is_critical)

/-- Source `Hero.take_damage` (lines 78-82): `damage - (self.defense // 2)` with Python
floor division, clamped below at 1; returns the actual damage together with the
updated hero. -/
def Hero.take_damage (h : Hero) (damage : ℤ) : ℤ × Hero :=
  let actual_damage := max (damage - Int.fdiv h.defense 2) 1
  (actual_damage, { h with current_hp := h.current_hp - actual_damage })

/-- Source `Hero.is_alive` (lines 84-86). -/
def Hero.is_alive (h : Hero) : Prop := 0 < h.current_hp

instance (h : Hero) : Decidable h.is_alive :=
  inferInstanceAs (Decidable (0 < h.current_hp))

/-- Source `Enemy` (lines 89-124); the cosmetic display name is omitted. -/
structure Enemy where
  level : ℤ
  hardcore_mode : Bool
  max_hp : ℤ
  current_hp : ℤ
  attack : ℤ
  defense : ℤ
deriving DecidableEq

/-- The `difficulty_multiplier` of `Enemy.__init__` (line 96). -/
def difficulty_multiplier (hardcore_mode : Bool) : ℚ :=
  if hardcore_mode then 1.5 else 1.0

/-- Source `Enemy.__init__` (lines 92-102): the level offset draw
(`random.randint(-2, 3)`) is an explicit input; `max_hp` and `attack` apply
Python `int()` to the float product; `defense` gets no multiplier. -/
def mkEnemy (hero_level : ℤ) (offset : ℤ) (hardcore_mode : Bool) : Enemy :=
  { level := hero_level + offset
    hardcore_mode := hardcore_mode
    max_hp := pyInt ((100 + ((hero_level + offset : ℤ) : ℚ) * 12) *
      difficulty_multiplier hardcore_mode)
    current_hp := pyInt ((100 + ((hero_level + offset : ℤ) : ℚ) * 12) *
      difficulty_multiplier hardcore_mode)
    attack := pyInt ((20 + ((hero_level + offset : ℤ) : ℚ) * 2) *
      difficulty_multiplier hardcore_mode)
    defense := 10 + (hero_level + offset) }

/-- Source `Enemy.attack_hero` (lines 110-114): the miss draw
(`random.random() < 0.15`) and the damage roll (`random.randint(-3, 8)`) are
explicit inputs; a miss returns 0 before any roll is used. -/
def Enemy.attack_hero (e : Enemy) (miss : Bool) (roll : ℤ) : ℤ :=
  if miss then 0 else e.attack + roll

/-- Source `Enemy.take_damage` (lines 116-120), textually identical to
`Hero.take_damage`. -/
def Enemy.take_damage (e : Enemy) (damage : ℤ) : ℤ × Enemy :=
  let actual_damage := max (damage - Int.fdiv e.defense 2) 1
  (actual_damage, { e with current_hp := e.current_hp - actual_damage })

/-- Source `Enemy.is_alive` (lines 122-124). -/
def Enemy.is_alive (e : Enemy) : Prop := 0 < e.current_hp

instance (e : Enemy) : Decidable e.is_alive :=
  inferInstanceAs (Decidable (0 < e.current_hp))

/-- The error taxonomy of `validate_arguments`; the code raises `ValueError` in
both cases, distinguished by message — spec section 7 names them `OutOfRange`
and `InvalidClass`. -/
inductive ValidationError where
  | outOfRange
  | invalidClass
deriving DecidableEq

/-- Source `Hero.VALID_CLASSES` (line 18). -/
def VALID_CLASSES : List String := ["Warrior", "Mage", "Rogue"]

/-- Source `validate_arguments` (lines 552-558) restricted to the hero-construction
arguments: the level-range check runs first, then the class-membership check.
The trailing battle-date format check (lines 560-563) concerns only report
labeling, not hero construction, and is independent of these two. -/
def validate_arguments (level : ℤ) (hero_class : String) :
    Except ValidationError Unit :=
  if level < 1 ∨ 100 < level then Except.error ValidationError.outOfRange
  else if hero_class ∉ VALID_CLASSES then Except.error ValidationError.invalidClass
  else Except.ok ()

/-- The four random draws a single battle turn can consume. -/
structure TurnDraws where
  hero_crit : Bool
  hero_roll : ℤ
  enemy_miss : Bool
  enemy_roll : ℤ

/-- A narrated battle-log entry (`log_event` calls of `simulate_battle`),
carrying the numeric content of the corresponding formatted string. -/
inductive Event where
  | heroAttack (raw actual : ℤ) (is_critical : Bool)
  | enemyHpShown (shown total : ℤ)
  | enemyDefeated
  | enemyMissed
  | enemyAttack (raw actual : ℤ)
  | heroHpShown (shown total : ℤ)
  | heroDefeated
  | timeout
  | battleEnd (victory : Bool)
deriving DecidableEq

/-- The mutable state of `BattleSimulator` (lines 130-135): the two combatants
(whose `current_hp` fields the loop mutates), the turn counter and the log. -/
structure SimState where
  hero : Hero
  enemy : Enemy
  turn_count : ℕ
  battle_log : List Event
deriving DecidableEq

/-- Source `self.max_turns` (line 135). -/
def max_turns : ℕ := 50

/-- One iteration of the `while` body of `simulate_battle` (lines 160-185):
increment the counter, resolve the hero's attack, and — only if the enemy is
still alive — resolve the enemy's action (an explicit miss when the returned
damage is 0) and the hero-death check.  Log lines record clamped
(`max(0, hp)`) health. -/
def doTurn (d : TurnDraws) (st : SimState) : SimState :=
  let atk := st.hero.attack_enemy d.hero_crit d.hero_roll
  let hit := st.enemy.take_damage atk.1
  let enemy' := hit.2
  if enemy'.is_alive then
    let enemy_damage := enemy'.attack_hero d.enemy_miss d.enemy_roll
    if enemy_damage = 0 then
      if st.hero.is_alive then
        { hero := st.hero, enemy := enemy', turn_count := st.turn_count + 1,
          battle_log := st.battle_log ++
            [Event.heroAttack atk.1 hit.1 atk.2,
             Event.enemyHpShown (max 0 enemy'.current_hp) enemy'.max_hp,
             Event.enemyMissed,
             Event.heroHpShown (max 0 st.hero.current_hp) st.hero.max_hp] }
      else
        { hero := st.hero, enemy := enemy', turn_count := st.turn_count + 1,
          battle_log := st.battle_log ++
            [Event.heroAttack atk.1 hit.1 atk.2,
             Event.enemyHpShown (max 0 enemy'.current_hp) enemy'.max_hp,
             Event.enemyMissed,
             Event.heroHpShown (max 0 st.hero.current_hp) st.hero.max_hp,
             Event.heroDefeated] }
    else
      let hhit := st.hero.take_damage enemy_damage
      let hero' := hhit.2
      if hero'.is_alive then
        { hero := hero', enemy := enemy', turn_count := st.turn_count + 1,
          battle_log := st.battle_log ++
            [Event.heroAttack atk.1 hit.1 atk.2,
             Event.enemyHpShown (max 0 enemy'.current_hp) enemy'.max_hp,
             Event.enemyAttack enemy_damage hhit.1,
             Event.heroHpShown (max 0 hero'.current_hp) hero'.max_hp] }
      else
        { hero := hero', enemy := enemy', turn_count := st.turn_count + 1,
          battle_log := st.battle_log ++
            [Event.heroAttack atk.1 hit.1 atk.2,
             Event.enemyHpShown (max 0 enemy'.current_hp) enemy'.max_hp,
             Event.enemyAttack enemy_damage hhit.1,
             Event.heroHpShown (max 0 hero'.current_hp) hero'.max_hp,
             Event.heroDefeated] }
  else
    { hero := st.hero, enemy := enemy', turn_count := st.turn_count + 1,
      battle_log := st.battle_log ++
        [Event.heroAttack atk.1 hit.1 atk.2,
         Event.enemyHpShown (max 0 enemy'.current_hp) enemy'.max_hp,
         Event.enemyDefeated] }

/-- The `while` loop of `simulate_battle` (lines 159-185) as fuelled recursion:
the guard is `hero.is_alive() and enemy.is_alive() and turn_count < max_turns`;
the two `break`s correspond to a combatant found dead after the turn's actions.
Turn `n` consumes the draw bundle `draws n` (the stream index is the number of
completed turns). -/
def battleLoop (draws : ℕ → TurnDraws) : ℕ → SimState → SimState
  | 0, st => st
  | fuel + 1, st =>
    if st.hero.is_alive ∧ st.enemy.is_alive ∧ st.turn_count < max_turns then
      let st' := doTurn (draws st.turn_count) st
      if ¬ st'.enemy.is_alive then st'
      else if ¬ st'.hero.is_alive then st'
      else battleLoop draws fuel st'
    else st

/-- The initial simulator state: `BattleSimulator.__init__` (lines 130-135). -/
def initState (hero : Hero) (enemy : Enemy) : SimState :=
  { hero := hero, enemy := enemy, turn_count := 0, battle_log := [] }

/-- Source `BattleSimulator.simulate_battle` (lines 144-194): run the loop (50 units of
fuel suffice, since the guard requires `turn_count < 50` and every iteration
increments the counter), then the post-loop checks: `turn_count >= max_turns`
yields the timeout narration and `False`; otherwise the result is
`hero.is_alive()`.  Returns the victory flag and the final state. -/
def simulate_battle (hero : Hero) (enemy : Enemy) (draws : ℕ → TurnDraws) :
    Bool × SimState :=
  let final := battleLoop draws max_turns (initState hero enemy)
  if max_turns ≤ final.turn_count then
    (false, { final with battle_log := final.battle_log ++ [Event.timeout] })
  else
    (decide final.hero.is_alive,
     { final with battle_log := final.battle_log ++
        [Event.battleEnd (decide final.hero.is_alive)] })

/-- A draw stream is valid when every damage roll lies in the inclusive range
the corresponding `random.randint` call can produce. -/
def ValidDraws (draws : ℕ → TurnDraws) : Prop :=
  ∀ n, -5 ≤ (draws n).hero_roll ∧ (draws n).hero_roll ≤ 10 ∧
    -3 ≤ (draws n).enemy_roll ∧ (draws n).enemy_roll ≤ 8

/-- A concrete valid draw stream: never critical, central hero roll, the enemy
always misses. -/
def constDraws : ℕ → TurnDraws :=
  fun _ => { hero_crit := false, hero_roll := 0, enemy_miss := true, enemy_roll := 0 }

/-- A concrete valid draw stream in which the enemy always hits. -/
def hitDraws : ℕ → TurnDraws :=
  fun _ => { hero_crit := false, hero_roll := 0, enemy_miss := false, enemy_roll := 0 }

/-- Analysis bound (not a source function): the least post-mitigation damage a
hero hit can inflict on an enemy with the given defense, over every valid
criticality draw and damage roll (`/` is integer floor division, the divisor
being positive). -/
def min_hero_hit (hero_attack enemy_defense : ℤ) : ℤ :=
  max (hero_attack - 5 - enemy_defense / 2) 1

/-- Analysis invariant (not a source function): after `turn_count` completed
turns the enemy has lost at least `turn_count` times the minimal hit. -/
def KillInv (st : SimState) : Prop :=
  st.enemy.current_hp ≤
    st.enemy.max_hp - (st.turn_count : ℤ) * min_hero_hit st.hero.attack st.enemy.defense

/-- Concrete fixture: a level-1 Warrior's combat-relevant stats. -/
def someHero : Hero :=
  { name := "hero", hero_class := HeroClass.warrior, level := 1,
    hardcore_mode := false, max_hp := 160, current_hp := 160, attack := 27,
    defense := 21, critical_chance := 0 }

/-- Concrete fixture: a level-4 non-hardcore enemy forced down to 1 health. -/
def lowEnemy : Enemy :=
  { level := 4, hardcore_mode := false, max_hp := 148, current_hp := 1,
    attack := 28, defense := 14 }

/-- Concrete fixture: the same enemy at full health. -/
def fullEnemy : Enemy :=
  { level := 4, hardcore_mode := false, max_hp := 148, current_hp := 148,
    attack := 28, defense := 14 }

/-- Concrete fixture: one turn's draws in which the enemy hits. -/
def tickDraw : TurnDraws :=
  { hero_crit := false, hero_roll := 0, enemy_miss := false, enemy_roll := 0 }

/-- Concrete fixture: one turn's draws in which the enemy misses. -/
def missDraw : TurnDraws :=
  { hero_crit := false, hero_roll := 0, enemy_miss := true, enemy_roll := 0 }

/-! ### Bridge lemmas: removing `ℚ` from the integer-valued computations -/

lemma pyInt_intCast (n : ℤ) : pyInt ((n : ℚ)) = n := by
  unfold pyInt
  split_ifs with h
  · have hneg : (-(n : ℚ)) = ((-n : ℤ) : ℚ) := by push_cast; ring
    rw [hneg, Int.floor_intCast]
    ring
  · exact Int.floor_intCast n

lemma attack_enemy_fst (h : Hero) (c : Bool) (r : ℤ) :
    (h.attack_enemy c r).1 = if c then 2 * (h.attack + r) else h.attack + r := by
  have hq : ((h.attack : ℚ) + (r : ℚ)) * 2.0 = ((2 * (h.attack + r) : ℤ) : ℚ) := by
    push_cast
    norm_num
    ring
  cases c
  · simp [Hero.attack_enemy]
  · simp only [Hero.attack_enemy, Int.cast_add]
    rw [hq, pyInt_intCast]

lemma attack_enemy_snd (h : Hero) (c : Bool) (r : ℤ) :
    (h.attack_enemy c r).2 = c := rfl

lemma fdiv_two (x : ℤ) : Int.fdiv x 2 = x / 2 :=
  Int.fdiv_eq_ediv x (by norm_num)

lemma hero_take_damage_fst (h : Hero) (dmg : ℤ) :
    (h.take_damage dmg).1 = max (dmg - h.defense / 2) 1 := by
  unfold Hero.take_damage
  rw [fdiv_two]

lemma hero_take_damage_hp (h : Hero) (dmg : ℤ) :
    (h.take_damage dmg).2.current_hp = h.current_hp - max (dmg - h.defense / 2) 1 := by
  unfold Hero.take_damage
  rw [fdiv_two]

lemma enemy_take_damage_fst (e : Enemy) (dmg : ℤ) :
    (e.take_damage dmg).1 = max (dmg - e.defense / 2) 1 := by
  unfold Enemy.take_damage
  rw [fdiv_two]

lemma enemy_take_damage_hp (e : Enemy) (dmg : ℤ) :
    (e.take_damage dmg).2.current_hp = e.current_hp - max (dmg - e.defense / 2) 1 := by
  unfold Enemy.take_damage
  rw [fdiv_two]

@[simp] lemma hero_take_damage_attack (h : Hero) (dmg : ℤ) :
    (h.take_damage dmg).2.attack = h.attack := rfl

@[simp] lemma hero_take_damage_defense (h : Hero) (dmg : ℤ) :
    (h.take_damage dmg).2.defense = h.defense := rfl

@[simp] lemma hero_take_damage_max_hp (h : Hero) (dmg : ℤ) :
    (h.take_damage dmg).2.max_hp = h.max_hp := rfl

@[simp] lemma enemy_take_damage_attack (e : Enemy) (dmg : ℤ) :
    (e.take_damage dmg).2.attack = e.attack := rfl

@[simp] lemma enemy_take_damage_defense (e : Enemy) (dmg : ℤ) :
    (e.take_damage dmg).2.defense = e.defense := rfl

@[simp] lemma enemy_take_damage_max_hp (e : Enemy) (dmg : ℤ) :
    (e.take_damage dmg).2.max_hp = e.max_hp := rfl

lemma mkEnemy_level (l o : ℤ) (h : Bool) : (mkEnemy l o h).level = l + o := rfl

lemma mkEnemy_defense (l o : ℤ) (h : Bool) : (mkEnemy l o h).defense = 10 + (l + o) := rfl

lemma mkEnemy_current_eq_max (l o : ℤ) (h : Bool) :
    (mkEnemy l o h).current_hp = (mkEnemy l o h).max_hp := rfl

lemma mkEnemy_max_hp (l o : ℤ) (h : Bool) :
    (mkEnemy l o h).max_hp = if h then 150 + 18 * (l + o) else 100 + 12 * (l + o) := by
  cases h
  · have hq : ((100 : ℚ) + ((l + o : ℤ) : ℚ) * 12) * 1.0 =
        ((100 + 12 * (l + o) : ℤ) : ℚ) := by
      push_cast
      norm_num
      ring
    show pyInt _ = _
    rw [show difficulty_multiplier false = 1.0 from rfl, hq, pyInt_intCast]
    simp
  · have h15 : (1.5 : ℚ) = 3 / 2 := by norm_num
    have hq : ((100 : ℚ) + ((l + o : ℤ) : ℚ) * 12) * (3 / 2) =
        ((150 + 18 * (l + o) : ℤ) : ℚ) := by
      push_cast
      ring
    show pyInt _ = _
    rw [show difficulty_multiplier true = 1.5 from rfl, h15, hq, pyInt_intCast]
    simp

lemma mkEnemy_attack (l o : ℤ) (h : Bool) :
    (mkEnemy l o h).attack = if h then 30 + 3 * (l + o) else 20 + 2 * (l + o) := by
  cases h
  · have hq : ((20 : ℚ) + ((l + o : ℤ) : ℚ) * 2) * 1.0 =
        ((20 + 2 * (l + o) : ℤ) : ℚ) := by
      push_cast
      norm_num
      ring
    show pyInt _ = _
    rw [show difficulty_multiplier false = 1.0 from rfl, hq, pyInt_intCast]
    simp
  · have h15 : (1.5 : ℚ) = 3 / 2 := by norm_num
    have hq : ((20 : ℚ) + ((l + o : ℤ) : ℚ) * 2) * (3 / 2) =
        ((30 + 3 * (l + o) : ℤ) : ℚ) := by
      push_cast
      ring
    show pyInt _ = _
    rw [show difficulty_multiplier true = 1.5 from rfl, h15, hq, pyInt_intCast]
    simp

lemma mkHero_attack (nm : String) (c : HeroClass) (lvl : ℤ) (hc : Bool) :
    (mkHero nm c lvl hc).attack = base_attack c + lvl * 2 := rfl

lemma mkHero_defense (nm : String) (c : HeroClass) (lvl : ℤ) (hc : Bool) :
    (mkHero nm c lvl hc).defense = base_defense c + lvl * 1 := rfl

lemma mkHero_current_eq_max (nm : String) (c : HeroClass) (lvl : ℤ) (hc : Bool) :
    (mkHero nm c lvl hc).current_hp = (mkHero nm c lvl hc).max_hp := rfl

lemma hero_take_damage_hp' (h : Hero) (dmg : ℤ) :
    (h.take_damage dmg).2.current_hp = h.current_hp - (h.take_damage dmg).1 := rfl

lemma enemy_take_damage_hp' (e : Enemy) (dmg : ℤ) :
    (e.take_damage dmg).2.current_hp = e.current_hp - (e.take_damage dmg).1 := rfl

lemma hero_take_damage_one_le (h : Hero) (dmg : ℤ) : 1 ≤ (h.take_damage dmg).1 := by
  rw [hero_take_damage_fst]
  exact le_max_right _ _

lemma enemy_take_damage_one_le (e : Enemy) (dmg : ℤ) : 1 ≤ (e.take_damage dmg).1 := by
  rw [enemy_take_damage_fst]
  exact le_max_right _ _

/-! ### Structural lemmas about a single turn -/

lemma doTurn_turn_count (d : TurnDraws) (st : SimState) :
    (doTurn d st).turn_count = st.turn_count + 1 := by
  simp only [doTurn]
  split_ifs <;> rfl

lemma doTurn_stats (d : TurnDraws) (st : SimState) :
    (doTurn d st).hero.attack = st.hero.attack ∧
    (doTurn d st).hero.defense = st.hero.defense ∧
    (doTurn d st).hero.max_hp = st.hero.max_hp ∧
    (doTurn d st).enemy.attack = st.enemy.attack ∧
    (doTurn d st).enemy.defense = st.enemy.defense ∧
    (doTurn d st).enemy.max_hp = st.enemy.max_hp := by
  simp only [doTurn]
  split_ifs <;> exact ⟨rfl, rfl, rfl, rfl, rfl, rfl⟩

lemma doTurn_enemy_hp (d : TurnDraws) (st : SimState) :
    (doTurn d st).enemy.current_hp =
      st.enemy.current_hp -
        (st.enemy.take_damage (st.hero.attack_enemy d.hero_crit d.hero_roll).1).1 := by
  simp only [doTurn]
  split_ifs <;> rfl

lemma doTurn_hero_hp_le (d : TurnDraws) (st : SimState) :
    (doTurn d st).hero.current_hp ≤ st.hero.current_hp := by
  have key : ∀ X : ℤ, (st.hero.take_damage X).2.current_hp ≤ st.hero.current_hp := by
    intro X
    rw [hero_take_damage_hp']
    have h1 := hero_take_damage_one_le st.hero X
    omega
  simp only [doTurn]
  split_ifs <;> first | exact le_refl _ | exact key _

lemma doTurn_hero_of_enemy_dead (d : TurnDraws) (st : SimState)
    (hdead : ¬ (doTurn d st).enemy.is_alive) : (doTurn d st).hero = st.hero := by
  simp only [doTurn] at hdead ⊢
  split_ifs at hdead ⊢ with h1 h2 h3
  · rfl
  · rfl
  · exact absurd h1 hdead
  · exact absurd h1 hdead
  · rfl

lemma doTurn_log_first (d : TurnDraws) (st : SimState) :
    ∃ rest, (doTurn d st).battle_log = st.battle_log ++
      Event.heroAttack (st.hero.attack_enemy d.hero_crit d.hero_roll).1
        (st.enemy.take_damage (st.hero.attack_enemy d.hero_crit d.hero_roll).1).1
        d.hero_crit :: rest := by
  have hc : (st.hero.attack_enemy d.hero_crit d.hero_roll).2 = d.hero_crit := rfl
  simp only [doTurn]
  split_ifs <;> exact ⟨_, by rw [hc]⟩

lemma doTurn_log_of_kill (d : TurnDraws) (st : SimState)
    (hdead : ¬ (doTurn d st).enemy.is_alive) :
    (doTurn d st).battle_log = st.battle_log ++
      [Event.heroAttack (st.hero.attack_enemy d.hero_crit d.hero_roll).1
         (st.enemy.take_damage (st.hero.attack_enemy d.hero_crit d.hero_roll).1).1
         d.hero_crit,
       Event.enemyHpShown
         (max 0 (st.enemy.take_damage
           (st.hero.attack_enemy d.hero_crit d.hero_roll).1).2.current_hp)
         st.enemy.max_hp,
       Event.enemyDefeated] := by
  have hc : (st.hero.attack_enemy d.hero_crit d.hero_roll).2 = d.hero_crit := rfl
  simp only [doTurn] at hdead ⊢
  split_ifs at hdead ⊢ with h1 h2 h3 h4
  · exact absurd h1 hdead
  · exact absurd h1 hdead
  · exact absurd h1 hdead
  · exact absurd h1 hdead
  · rw [hc]
    exact rfl


/-! ### Structural lemmas about the battle loop -/

lemma battleLoop_stats (draws : ℕ → TurnDraws) : ∀ (fuel : ℕ) (st : SimState),
    (battleLoop draws fuel st).hero.attack = st.hero.attack ∧
    (battleLoop draws fuel st).hero.defense = st.hero.defense ∧
    (battleLoop draws fuel st).hero.max_hp = st.hero.max_hp ∧
    (battleLoop draws fuel st).enemy.attack = st.enemy.attack ∧
    (battleLoop draws fuel st).enemy.defense = st.enemy.defense ∧
    (battleLoop draws fuel st).enemy.max_hp = st.enemy.max_hp := by
  intro fuel
  induction fuel with
  | zero => exact fun st => ⟨rfl, rfl, rfl, rfl, rfl, rfl⟩
  | succ n ih =>
    intro st
    simp only [battleLoop]
    split_ifs with hg h1 h2
    · obtain ⟨a1, a2, a3, a4, a5, a6⟩ := ih (doTurn (draws st.turn_count) st)
      obtain ⟨b1, b2, b3, b4, b5, b6⟩ := doTurn_stats (draws st.turn_count) st
      exact ⟨a1.trans b1, a2.trans b2, a3.trans b3, a4.trans b4, a5.trans b5, a6.trans b6⟩
    · exact doTurn_stats _ _
    · exact doTurn_stats _ _
    · exact ⟨rfl, rfl, rfl, rfl, rfl, rfl⟩

lemma battleLoop_hp_mono (draws : ℕ → TurnDraws) : ∀ (fuel : ℕ) (st : SimState),
    (battleLoop draws fuel st).hero.current_hp ≤ st.hero.current_hp ∧
    (battleLoop draws fuel st).enemy.current_hp ≤ st.enemy.current_hp := by
  intro fuel
  induction fuel with
  | zero => exact fun st => ⟨le_refl _, le_refl _⟩
  | succ n ih =>
    intro st
    have hdo : ∀ d, (doTurn d st).hero.current_hp ≤ st.hero.current_hp ∧
        (doTurn d st).enemy.current_hp ≤ st.enemy.current_hp := by
      intro d
      refine ⟨doTurn_hero_hp_le d st, ?_⟩
      rw [doTurn_enemy_hp]
      have := enemy_take_damage_one_le st.enemy
        (st.hero.attack_enemy d.hero_crit d.hero_roll).1
      omega
    simp only [battleLoop]
    split_ifs with hg h1 h2
    · obtain ⟨a1, a2⟩ := ih (doTurn (draws st.turn_count) st)
      obtain ⟨b1, b2⟩ := hdo (draws st.turn_count)
      exact ⟨a1.trans b1, a2.trans b2⟩
    · exact hdo _
    · exact hdo _
    · exact ⟨le_refl _, le_refl _⟩

lemma battleLoop_turn_le (draws : ℕ → TurnDraws) : ∀ (fuel : ℕ) (st : SimState),
    st.turn_count ≤ max_turns → (battleLoop draws fuel st).turn_count ≤ max_turns := by
  intro fuel
  induction fuel with
  | zero => exact fun st h => h
  | succ n ih =>
    intro st hst
    simp only [battleLoop]
    split_ifs with hg h1 h2
    · refine ih _ ?_
      rw [doTurn_turn_count]
      exact hg.2.2
    · rw [doTurn_turn_count]
      exact hg.2.2
    · rw [doTurn_turn_count]
      exact hg.2.2
    · exact hst

lemma battleLoop_succ (draws : ℕ → TurnDraws) (n : ℕ) (st : SimState) :
    battleLoop draws (n + 1) st =
      if st.hero.is_alive ∧ st.enemy.is_alive ∧ st.turn_count < max_turns then
        (if ¬ (doTurn (draws st.turn_count) st).enemy.is_alive then
          doTurn (draws st.turn_count) st
         else if ¬ (doTurn (draws st.turn_count) st).hero.is_alive then
          doTurn (draws st.turn_count) st
         else battleLoop draws n (doTurn (draws st.turn_count) st))
      else st := rfl

lemma battleLoop_step_eq (draws : ℕ → TurnDraws) : ∀ (fuel : ℕ) (st : SimState),
    max_turns ≤ st.turn_count + fuel →
    battleLoop draws (fuel + 1) st = battleLoop draws fuel st := by
  intro fuel
  induction fuel with
  | zero =>
    intro st h50
    have hng : ¬ (st.hero.is_alive ∧ st.enemy.is_alive ∧ st.turn_count < max_turns) := by
      intro hg
      have := hg.2.2
      omega
    simp only [battleLoop]
    rw [if_neg hng]
  | succ n ih =>
    intro st h50
    rw [battleLoop_succ draws (n + 1) st, battleLoop_succ draws n st]
    split_ifs with hg h1 h2
    · refine ih _ ?_
      rw [doTurn_turn_count]
      omega
    · rfl
    · rfl
    · rfl

/-! ### The kill invariant: the enemy loses at least `min_hero_hit` health per turn -/

lemma min_hero_hit_pos (a dfn : ℤ) : 1 ≤ min_hero_hit a dfn :=
  le_max_right _ _

lemma hero_hit_ge (h : Hero) (e : Enemy) (c : Bool) (r : ℤ)
    (hr : -5 ≤ r) (ha : 5 ≤ h.attack) :
    min_hero_hit h.attack e.defense ≤ (e.take_damage (h.attack_enemy c r).1).1 := by
  rw [enemy_take_damage_fst, attack_enemy_fst, min_hero_hit]
  have hraw : h.attack - 5 ≤ (if c = true then 2 * (h.attack + r) else h.attack + r) := by
    cases c <;> simp <;> omega
  exact max_le_max (by omega) (le_refl 1)

lemma doTurn_inv (d : TurnDraws) (st : SimState) (hr : -5 ≤ d.hero_roll)
    (ha : 5 ≤ st.hero.attack) (hinv : KillInv st) : KillInv (doTurn d st) := by
  unfold KillInv at hinv ⊢
  obtain ⟨s1, s2, s3, s4, s5, s6⟩ := doTurn_stats d st
  rw [s1, s5, s6, doTurn_enemy_hp, doTurn_turn_count]
  have hhit := hero_hit_ge st.hero st.enemy d.hero_crit d.hero_roll hr ha
  push_cast
  have hexp : ((st.turn_count : ℤ) + 1) * min_hero_hit st.hero.attack st.enemy.defense =
      (st.turn_count : ℤ) * min_hero_hit st.hero.attack st.enemy.defense +
        min_hero_hit st.hero.attack st.enemy.defense := by ring
  rw [hexp]
  omega

lemma battleLoop_inv (draws : ℕ → TurnDraws) (hd : ValidDraws draws) :
    ∀ (fuel : ℕ) (st : SimState), 5 ≤ st.hero.attack → KillInv st →
    KillInv (battleLoop draws fuel st) := by
  intro fuel
  induction fuel with
  | zero => exact fun st _ hinv => hinv
  | succ n ih =>
    intro st ha hinv
    have hstep := doTurn_inv (draws st.turn_count) st (hd st.turn_count).1 ha hinv
    simp only [battleLoop]
    split_ifs with hg h1 h2
    · refine ih _ ?_ hstep
      rw [(doTurn_stats (draws st.turn_count) st).1]
      exact ha
    · exact hstep
    · exact hstep
    · exact hinv

lemma battleLoop_turn49 (draws : ℕ → TurnDraws) (hd : ValidDraws draws) :
    ∀ (fuel : ℕ) (st : SimState), 5 ≤ st.hero.attack → KillInv st →
    st.enemy.max_hp ≤ 49 * min_hero_hit st.hero.attack st.enemy.defense →
    st.turn_count ≤ 49 → (battleLoop draws fuel st).turn_count ≤ 49 := by
  intro fuel
  induction fuel with
  | zero => exact fun st _ _ _ h => h
  | succ n ih =>
    intro st ha hinv hkey ht
    simp only [battleLoop]
    split_ifs with hg h1 h2
    · have halive : (0 : ℤ) < st.enemy.current_hp := hg.2.1
      have hlt : (st.turn_count : ℤ) * min_hero_hit st.hero.attack st.enemy.defense <
          49 * min_hero_hit st.hero.attack st.enemy.defense := by
        unfold KillInv at hinv
        omega
      have hpos : (0 : ℤ) < min_hero_hit st.hero.attack st.enemy.defense :=
        lt_of_lt_of_le zero_lt_one (min_hero_hit_pos _ _)
      have ht49 : (st.turn_count : ℤ) < 49 := lt_of_mul_lt_mul_right hlt (le_of_lt hpos)
      have ht49n : st.turn_count < 49 := by exact_mod_cast ht49
      obtain ⟨s1, s2, s3, s4, s5, s6⟩ := doTurn_stats (draws st.turn_count) st
      refine ih _ ?_ ?_ ?_ ?_
      · rw [s1]
        exact ha
      · exact doTurn_inv (draws st.turn_count) st (hd st.turn_count).1 ha hinv
      · rw [s1, s5, s6]
        exact hkey
      · rw [doTurn_turn_count]
        omega
    · have halive : (0 : ℤ) < st.enemy.current_hp := hg.2.1
      have hlt : (st.turn_count : ℤ) * min_hero_hit st.hero.attack st.enemy.defense <
          49 * min_hero_hit st.hero.attack st.enemy.defense := by
        unfold KillInv at hinv
        omega
      have hpos : (0 : ℤ) < min_hero_hit st.hero.attack st.enemy.defense :=
        lt_of_lt_of_le zero_lt_one (min_hero_hit_pos _ _)
      have ht49 : (st.turn_count : ℤ) < 49 := lt_of_mul_lt_mul_right hlt (le_of_lt hpos)
      have ht49n : st.turn_count < 49 := by exact_mod_cast ht49
      rw [doTurn_turn_count]
      omega
    · have halive : (0 : ℤ) < st.enemy.current_hp := hg.2.1
      have hlt : (st.turn_count : ℤ) * min_hero_hit st.hero.attack st.enemy.defense <
          49 * min_hero_hit st.hero.attack st.enemy.defense := by
        unfold KillInv at hinv
        omega
      have hpos : (0 : ℤ) < min_hero_hit st.hero.attack st.enemy.defense :=
        lt_of_lt_of_le zero_lt_one (min_hero_hit_pos _ _)
      have ht49 : (st.turn_count : ℤ) < 49 := lt_of_mul_lt_mul_right hlt (le_of_lt hpos)
      have ht49n : st.turn_count < 49 := by exact_mod_cast ht49
      rw [doTurn_turn_count]
      omega
    · exact ht

lemma battleLoop_kill_hero (draws : ℕ → TurnDraws) :
    ∀ (fuel : ℕ) (st : SimState), 0 < st.enemy.current_hp →
    (battleLoop draws fuel st).enemy.current_hp ≤ 0 →
    0 < (battleLoop draws fuel st).hero.current_hp := by
  intro fuel
  induction fuel with
  | zero =>
    intro st he hdead
    simp only [battleLoop] at hdead ⊢
    omega
  | succ n ih =>
    intro st he hdead
    simp only [battleLoop] at hdead ⊢
    split_ifs at hdead ⊢ with hg h1 h2
    · refine ih _ h1 hdead
    · exact absurd hdead (by have := h1; unfold Enemy.is_alive at this; omega)
    · have heq := doTurn_hero_of_enemy_dead (draws st.turn_count) st
        (by intro hal; unfold Enemy.is_alive at hal; omega)
      rw [heq]
      exact hg.1
    · exact absurd hdead (by omega)

lemma battleLoop_fuel_eq (draws : ℕ → TurnDraws) (st : SimState)
    (hst : st.turn_count = 0) : ∀ fuel, max_turns ≤ fuel →
    battleLoop draws fuel st = battleLoop draws max_turns st := by
  intro fuel hf
  induction fuel, hf using Nat.le_induction with
  | base => rfl
  | succ n hn ih =>
    rw [battleLoop_step_eq draws n st (by omega), ih]

lemma mkHero_attack_ge (nm : String) (c : HeroClass) (lvl : ℤ) (hc : Bool)
    (h1 : 1 ≤ lvl) : 27 ≤ (mkHero nm c lvl hc).attack := by
  rw [mkHero_attack]
  cases c <;> simp [base_attack] <;> omega

lemma mkEnemy_hp_pos (l o : ℤ) (h : Bool) (h1 : 1 ≤ l) (h3 : -2 ≤ o) :
    0 < (mkEnemy l o h).current_hp := by
  rw [mkEnemy_current_eq_max, mkEnemy_max_hp]
  split_ifs <;> omega

lemma hkey_init (nm : String) (c : HeroClass) (l o : ℤ) (hc h : Bool)
    (h1 : 1 ≤ l) (h2 : l ≤ 100) (h3 : -2 ≤ o) (h4 : o ≤ 3) :
    (mkEnemy l o h).max_hp ≤
      49 * min_hero_hit (mkHero nm c l hc).attack (mkEnemy l o h).defense := by
  rw [mkEnemy_max_hp, mkHero_attack, mkEnemy_defense, min_hero_hit]
  have h25 : 25 ≤ base_attack c := by cases c <;> norm_num [base_attack]
  have hle : base_attack c + l * 2 - 5 - (10 + (l + o)) / 2 ≤
      max (base_attack c + l * 2 - 5 - (10 + (l + o)) / 2) 1 := le_max_left _ _
  have hmul : 49 * (base_attack c + l * 2 - 5 - (10 + (l + o)) / 2) ≤
      49 * max (base_attack c + l * 2 - 5 - (10 + (l + o)) / 2) 1 :=
    mul_le_mul_of_nonneg_left hle (by norm_num)
  split_ifs <;> omega

lemma killInv_initState (hero : Hero) (enemy : Enemy)
    (he : enemy.current_hp ≤ enemy.max_hp) : KillInv (initState hero enemy) := by
  unfold KillInv initState
  simpa using he

lemma constDraws_valid : ValidDraws constDraws := by
  intro n
  refine ⟨?_, ?_, ?_, ?_⟩ <;> norm_num [constDraws]

lemma hitDraws_valid : ValidDraws hitDraws := by
  intro n
  refine ⟨?_, ?_, ?_, ?_⟩ <;> norm_num [hitDraws]

/-- Claim C1.  For every valid construction and every valid draw sequence: the
final turn count stays strictly below the 50-turn ceiling (so the `Timeout`
branch — the `turn_count >= max_turns` check of lines 187-189 — is never taken
for a battle built from derived stats: the hero's minimal per-turn damage kills
any derivable enemy well before turn 50); consequently, whenever a hero attack
has reduced the enemy's health to ≤ 0, `simulate_battle` returns `True`
(HeroVictory), and a `False` return can only come with the hero dead
(EnemyVictory).  This covers the claim: a kill on any reachable turn yields
victory, and Timeout — which never occurs — trivially requires that the ceiling
be reached before either combatant dies. -/
theorem battle_kill_victory (nm : String) (c : HeroClass) (lvl o : ℤ) (hc h : Bool)
    (draws : ℕ → TurnDraws) (h1 : 1 ≤ lvl) (h2 : lvl ≤ 100) (h3 : -2 ≤ o) (h4 : o ≤ 3)
    (hd : ValidDraws draws) :
    (simulate_battle (mkHero nm c lvl hc) (mkEnemy lvl o h) draws).2.turn_count < max_turns ∧
    ((simulate_battle (mkHero nm c lvl hc) (mkEnemy lvl o h) draws).2.enemy.current_hp ≤ 0 →
      (simulate_battle (mkHero nm c lvl hc) (mkEnemy lvl o h) draws).1 = true) ∧
    ((simulate_battle (mkHero nm c lvl hc) (mkEnemy lvl o h) draws).1 = false →
      (simulate_battle (mkHero nm c lvl hc) (mkEnemy lvl o h) draws).2.hero.current_hp ≤ 0) := by
  set hero := mkHero nm c lvl hc with hh
  set enemy := mkEnemy lvl o h with he
  set st0 := initState hero enemy with hst0
  set final := battleLoop draws max_turns st0 with hfinal
  have hatk : 5 ≤ st0.hero.attack := by
    show 5 ≤ hero.attack
    rw [hh]
    have := mkHero_attack_ge nm c lvl hc h1
    omega
  have hinv0 : KillInv st0 :=
    killInv_initState hero enemy (le_of_eq (mkEnemy_current_eq_max lvl o h))
  have hkey : st0.enemy.max_hp ≤ 49 * min_hero_hit st0.hero.attack st0.enemy.defense :=
    hkey_init nm c lvl o hc h h1 h2 h3 h4
  have hturn : final.turn_count ≤ 49 :=
    battleLoop_turn49 draws hd max_turns st0 hatk hinv0 hkey (by norm_num [hst0, initState])
  have hcond : ¬ (max_turns ≤ final.turn_count) := by
    unfold max_turns
    omega
  have hsim : simulate_battle hero enemy draws =
      if max_turns ≤ final.turn_count then
        (false, { final with battle_log := final.battle_log ++ [Event.timeout] })
      else
        (decide final.hero.is_alive,
         { final with battle_log := final.battle_log ++
            [Event.battleEnd (decide final.hero.is_alive)] }) := rfl
  rw [hsim, if_neg hcond]
  refine ⟨?_, ?_, ?_⟩
  · show final.turn_count < max_turns
    unfold max_turns
    omega
  · intro hkill
    have he0 : 0 < st0.enemy.current_hp := mkEnemy_hp_pos lvl o h h1 h3
    have halive := battleLoop_kill_hero draws max_turns st0 he0 hkill
    exact decide_eq_true halive
  · intro hfalse
    have hnal : ¬ final.hero.is_alive := of_decide_eq_false hfalse
    unfold Hero.is_alive at hnal
    show final.hero.current_hp ≤ 0
    omega

lemma floor_hp_formula (x : ℤ) (h : Bool) :
    ⌊((100 : ℚ) + (x : ℚ) * 12) * (if h then 1.5 else 1.0)⌋ =
      if h then 150 + 18 * x else 100 + 12 * x := by
  cases h
  · have hq : ((100 : ℚ) + (x : ℚ) * 12) * 1.0 = ((100 + 12 * x : ℤ) : ℚ) := by
      push_cast
      norm_num
      ring
    simp only [Bool.false_eq_true, if_false, hq, Int.floor_intCast]
  · have h15 : (1.5 : ℚ) = 3 / 2 := by norm_num
    have hq : ((100 : ℚ) + (x : ℚ) * 12) * (3 / 2) = ((150 + 18 * x : ℤ) : ℚ) := by
      push_cast
      ring
    simp only [if_true, h15, hq, Int.floor_intCast]

lemma floor_atk_formula (x : ℤ) (h : Bool) :
    ⌊((20 : ℚ) + (x : ℚ) * 2) * (if h then 1.5 else 1.0)⌋ =
      if h then 30 + 3 * x else 20 + 2 * x := by
  cases h
  · have hq : ((20 : ℚ) + (x : ℚ) * 2) * 1.0 = ((20 + 2 * x : ℤ) : ℚ) := by
      push_cast
      norm_num
      ring
    simp only [Bool.false_eq_true, if_false, hq, Int.floor_intCast]
  · have h15 : (1.5 : ℚ) = 3 / 2 := by norm_num
    have hq : ((20 : ℚ) + (x : ℚ) * 2) * (3 / 2) = ((30 + 3 * x : ℤ) : ℚ) := by
      push_cast
      ring
    simp only [if_true, h15, hq, Int.floor_intCast]

/-- Claim C2.  For every valid class and level in `[1, 100]`, the hero's derived
attributes equal the table-plus-offset formulas (`maxHealth = baseHP + 10·level`,
`attack = baseAttack + 2·level`, `defense = baseDefense + level`,
`criticalChance = min(baseCrit + 0.002·level, 0.75)`), and a level-1
non-hardcore Warrior gets maxHealth 160, attack 27, defense 21, criticalChance
0.152. -/
theorem hero_stat_derivation (nm : String) (c : HeroClass) (lvl : ℤ) (hc : Bool)
    (h1 : 1 ≤ lvl) (h2 : lvl ≤ 100) :
    ((mkHero nm c lvl hc).max_hp = base_hp c + lvl * 10 ∧
     (mkHero nm c lvl hc).attack = base_attack c + lvl * 2 ∧
     (mkHero nm c lvl hc).defense = base_defense c + lvl * 1 ∧
     (mkHero nm c lvl hc).critical_chance =
       min (base_crit c + (lvl : ℚ) * 0.002) 0.75) ∧
    ((mkHero "Conan" HeroClass.warrior 1 false).max_hp = 160 ∧
     (mkHero "Conan" HeroClass.warrior 1 false).attack = 27 ∧
     (mkHero "Conan" HeroClass.warrior 1 false).defense = 21 ∧
     (mkHero "Conan" HeroClass.warrior 1 false).critical_chance = 0.152) := by
  refine ⟨⟨rfl, rfl, rfl, rfl⟩, ?_, ?_, ?_, ?_⟩
  · norm_num [mkHero, calculate_max_hp, base_hp]
  · norm_num [mkHero, calculate_attack, base_attack]
  · norm_num [mkHero, calculate_defense, base_defense]
  · norm_num [mkHero, calculate_critical_chance, base_crit, min_def]

/-- Claim C3.  For every hero level in `[1, 100]` and offset draw in `[-2, 3]`,
the derived enemy level is `heroLevel + offset` with no floor applied (it is
`-1` at level 1 with offset `-2`, and `0` at level 2 with offset `-2`);
`maxHealth` and `attack` are the floors of the multiplied formulas with
`m = 1.5` iff hardcore, while `defense = 10 + level` never receives the
multiplier. -/
theorem enemy_stat_derivation (lvl o : ℤ) (h : Bool)
    (h1 : 1 ≤ lvl) (h2 : lvl ≤ 100) (h3 : -2 ≤ o) (h4 : o ≤ 3) :
    ((mkEnemy lvl o h).level = lvl + o ∧
     (mkEnemy lvl o h).max_hp =
       ⌊((100 : ℚ) + ((lvl + o : ℤ) : ℚ) * 12) * (if h then 1.5 else 1.0)⌋ ∧
     (mkEnemy lvl o h).attack =
       ⌊((20 : ℚ) + ((lvl + o : ℤ) : ℚ) * 2) * (if h then 1.5 else 1.0)⌋ ∧
     (mkEnemy lvl o h).defense = 10 + (lvl + o)) ∧
    ((mkEnemy 1 (-2) h).level = -1 ∧ (mkEnemy 2 (-2) h).level = 0) := by
  refine ⟨⟨rfl, ?_, ?_, rfl⟩, by norm_num [mkEnemy_level], by norm_num [mkEnemy_level]⟩
  · rw [mkEnemy_max_hp, floor_hp_formula]
  · rw [mkEnemy_attack, floor_atk_formula]

/-- Claim C4.  `take_damage` (on either combatant, the two methods being textually
identical) subtracts exactly `max(rawDamage - defense // 2, 1)` from the
defender's current health and returns that amount, which is always at least 1 —
so every non-miss hit strictly decreases the defender's health, for every raw
damage and every defense value. -/
theorem take_damage_spec (h : Hero) (e : Enemy) (dmg : ℤ) :
    ((h.take_damage dmg).1 = max (dmg - Int.fdiv h.defense 2) 1 ∧
     (h.take_damage dmg).2.current_hp = h.current_hp - (h.take_damage dmg).1 ∧
     1 ≤ (h.take_damage dmg).1 ∧
     (h.take_damage dmg).2.current_hp < h.current_hp) ∧
    ((e.take_damage dmg).1 = max (dmg - Int.fdiv e.defense 2) 1 ∧
     (e.take_damage dmg).2.current_hp = e.current_hp - (e.take_damage dmg).1 ∧
     1 ≤ (e.take_damage dmg).1 ∧
     (e.take_damage dmg).2.current_hp < e.current_hp) := by
  have hh1 := hero_take_damage_one_le h dmg
  have he1 := enemy_take_damage_one_le e dmg
  refine ⟨⟨rfl, rfl, hh1, ?_⟩, rfl, rfl, he1, ?_⟩
  · rw [hero_take_damage_hp']
    omega
  · rw [enemy_take_damage_hp']
    omega

/-- Claim C5.  The battle loop terminates within the 50-turn ceiling regardless of
draws and stats: 50 units of fuel compute the loop's fixpoint (any larger fuel
yields the same final state), and the final turn counter never exceeds
`max_turns`. -/
theorem battle_terminates (hero : Hero) (enemy : Enemy) (draws : ℕ → TurnDraws)
    (fuel : ℕ) (hf : max_turns ≤ fuel) :
    battleLoop draws fuel (initState hero enemy) =
      battleLoop draws max_turns (initState hero enemy) ∧
    (simulate_battle hero enemy draws).2.turn_count ≤ max_turns := by
  refine ⟨battleLoop_fuel_eq draws (initState hero enemy) rfl fuel hf, ?_⟩
  have h50 := battleLoop_turn_le draws max_turns (initState hero enemy)
    (by norm_num [initState])
  set final := battleLoop draws max_turns (initState hero enemy) with hfinal
  have hsim : simulate_battle hero enemy draws =
      if max_turns ≤ final.turn_count then
        (false, { final with battle_log := final.battle_log ++ [Event.timeout] })
      else
        (decide final.hero.is_alive,
         { final with battle_log := final.battle_log ++
            [Event.battleEnd (decide final.hero.is_alive)] }) := rfl
  rw [hsim]
  split_ifs with hc
  · exact h50
  · exact h50

/-- Claim C6.  In every turn, the hero's attack resolves first: the turn's log
entries begin with the hero-attack narration; and if the hero's hit leaves the
enemy dead, the turn appends exactly the hero attack, the (clamped) enemy
health line and the defeat narration — no enemy action occurs and the hero
object is untouched that turn. -/
theorem hero_strikes_first (d : TurnDraws) (st : SimState) :
    (∃ rest, (doTurn d st).battle_log = st.battle_log ++
      Event.heroAttack (st.hero.attack_enemy d.hero_crit d.hero_roll).1
        (st.enemy.take_damage (st.hero.attack_enemy d.hero_crit d.hero_roll).1).1
        d.hero_crit :: rest) ∧
    (¬ (doTurn d st).enemy.is_alive →
      (doTurn d st).hero = st.hero ∧
      (doTurn d st).battle_log = st.battle_log ++
        [Event.heroAttack (st.hero.attack_enemy d.hero_crit d.hero_roll).1
           (st.enemy.take_damage (st.hero.attack_enemy d.hero_crit d.hero_roll).1).1
           d.hero_crit,
         Event.enemyHpShown
           (max 0 (st.enemy.take_damage
             (st.hero.attack_enemy d.hero_crit d.hero_roll).1).2.current_hp)
           st.enemy.max_hp,
         Event.enemyDefeated]) :=
  ⟨doTurn_log_first d st, fun hdead =>
    ⟨doTurn_hero_of_enemy_dead d st hdead, doTurn_log_of_kill d st hdead⟩⟩

/-- Claim C7.  Both combatants' health starts at `maxHealth` and never increases:
every single turn leaves the hero's health no larger (the enemy's strictly
smaller), the whole loop is non-increasing from any state, and at the end of a
full simulation both healths are still bounded by the respective `maxHealth`
(internal health may be negative; the invariant is an upper bound only). -/
theorem health_monotone (nm : String) (c : HeroClass) (lvl o : ℤ) (hc h : Bool)
    (draws : ℕ → TurnDraws) :
    (mkHero nm c lvl hc).current_hp = (mkHero nm c lvl hc).max_hp ∧
    (mkEnemy lvl o h).current_hp = (mkEnemy lvl o h).max_hp ∧
    (∀ (d : TurnDraws) (st : SimState),
      (doTurn d st).hero.current_hp ≤ st.hero.current_hp ∧
      (doTurn d st).enemy.current_hp < st.enemy.current_hp) ∧
    (∀ (fuel : ℕ) (st : SimState),
      (battleLoop draws fuel st).hero.current_hp ≤ st.hero.current_hp ∧
      (battleLoop draws fuel st).enemy.current_hp ≤ st.enemy.current_hp) ∧
    ((simulate_battle (mkHero nm c lvl hc) (mkEnemy lvl o h) draws).2.hero.current_hp ≤
        (mkHero nm c lvl hc).max_hp ∧
     (simulate_battle (mkHero nm c lvl hc) (mkEnemy lvl o h) draws).2.enemy.current_hp ≤
        (mkEnemy lvl o h).max_hp) := by
  refine ⟨rfl, rfl, ?_, fun fuel st => battleLoop_hp_mono draws fuel st, ?_⟩
  · intro d st
    refine ⟨doTurn_hero_hp_le d st, ?_⟩
    rw [doTurn_enemy_hp]
    have := enemy_take_damage_one_le st.enemy
      (st.hero.attack_enemy d.hero_crit d.hero_roll).1
    omega
  · set hero := mkHero nm c lvl hc with hh
    set enemy := mkEnemy lvl o h with he
    set final := battleLoop draws max_turns (initState hero enemy) with hf
    obtain ⟨m1, m2⟩ := battleLoop_hp_mono draws max_turns (initState hero enemy)
    have m1' : final.hero.current_hp ≤ hero.current_hp := m1
    have m2' : final.enemy.current_hp ≤ enemy.current_hp := m2
    have hcm : hero.current_hp = hero.max_hp := by
      rw [hh]
      exact rfl
    have hem : enemy.current_hp = enemy.max_hp := by
      rw [he]
      exact rfl
    have hsim : simulate_battle hero enemy draws =
        if max_turns ≤ final.turn_count then
          (false, { final with battle_log := final.battle_log ++ [Event.timeout] })
        else
          (decide final.hero.is_alive,
           { final with battle_log := final.battle_log ++
              [Event.battleEnd (decide final.hero.is_alive)] }) := rfl
    rw [hsim]
    split_ifs with hc50
    · exact ⟨by show final.hero.current_hp ≤ hero.max_hp; omega,
        by show final.enemy.current_hp ≤ enemy.max_hp; omega⟩
    · exact ⟨by show final.hero.current_hp ≤ hero.max_hp; omega,
        by show final.enemy.current_hp ≤ enemy.max_hp; omega⟩

/-- Claim C8 (counterexample).  The claim says an out-of-enumeration class fails
with an `InvalidClass` error; but at level 0 with class `"Dragon"` (both
arguments invalid) validation fails with `OutOfRange`: the level check runs
first. -/
theorem validate_invalid_class_counterexample :
    validate_arguments 0 "Dragon" = Except.error ValidationError.outOfRange ∧
    validate_arguments 0 "Dragon" ≠ Except.error ValidationError.invalidClass := by
  have h0 : validate_arguments 0 "Dragon" = Except.error ValidationError.outOfRange := rfl
  refine ⟨h0, ?_⟩
  intro hcontra
  rw [h0] at hcontra
  exact ValidationError.noConfusion (Except.error.inj hcontra)

/-- Claim C8 (amended).  A level outside `[1, 100]` always fails with `OutOfRange`;
a class outside the enumerated set fails with `InvalidClass` provided the level
is in range (the level check has precedence); with both valid, validation
succeeds. -/
theorem validate_arguments_order (lvl : ℤ) (cls : String) :
    (lvl < 1 ∨ 100 < lvl →
      validate_arguments lvl cls = Except.error ValidationError.outOfRange) ∧
    (1 ≤ lvl → lvl ≤ 100 → cls ∉ VALID_CLASSES →
      validate_arguments lvl cls = Except.error ValidationError.invalidClass) ∧
    (1 ≤ lvl → lvl ≤ 100 → cls ∈ VALID_CLASSES →
      validate_arguments lvl cls = Except.ok ()) := by
  unfold validate_arguments
  refine ⟨?_, ?_, ?_⟩
  · intro hout
    rw [if_pos hout]
  · intro ha hb hnot
    rw [if_neg (by omega), if_pos hnot]
  · intro ha hb hmem
    rw [if_neg (by omega), if_neg (not_not_intro hmem)]

/-- Claim C9.  The hardcore flag does not interfere with hero stat derivation:
for any name, class and level in `[1, 100]`, the two heroes differing only in
the flag have identical derived attributes and starting health. -/
theorem hardcore_hero_noninterference (nm : String) (c : HeroClass) (lvl : ℤ)
    (h1 : 1 ≤ lvl) (h2 : lvl ≤ 100) :
    (mkHero nm c lvl true).max_hp = (mkHero nm c lvl false).max_hp ∧
    (mkHero nm c lvl true).current_hp = (mkHero nm c lvl false).current_hp ∧
    (mkHero nm c lvl true).attack = (mkHero nm c lvl false).attack ∧
    (mkHero nm c lvl true).defense = (mkHero nm c lvl false).defense ∧
    (mkHero nm c lvl true).critical_chance = (mkHero nm c lvl false).critical_chance :=
  ⟨rfl, rfl, rfl, rfl, rfl⟩

lemma doTurn_hero_unchanged_iff (d : TurnDraws) (st : SimState)
    (hatk : 15 ≤ st.enemy.attack + d.enemy_roll)
    (halive : (doTurn d st).enemy.is_alive) :
    ((doTurn d st).hero.current_hp = st.hero.current_hp ↔ d.enemy_miss = true) := by
  have ha2 : (st.enemy.take_damage
      (st.hero.attack_enemy d.hero_crit d.hero_roll).1).2.attack = st.enemy.attack := rfl
  simp only [doTurn] at halive ⊢
  split_ifs at halive ⊢ with hal hed hh1
  · have hmiss : d.enemy_miss = true := by
      by_contra hm
      have hm' : d.enemy_miss = false := by
        cases hb : d.enemy_miss
        · rfl
        · exact absurd hb hm
      rw [hm'] at hed
      unfold Enemy.attack_hero at hed
      simp at hed
      omega
    simp [hmiss]
  · have hmiss : d.enemy_miss = true := by
      by_contra hm
      have hm' : d.enemy_miss = false := by
        cases hb : d.enemy_miss
        · rfl
        · exact absurd hb hm
      rw [hm'] at hed
      unfold Enemy.attack_hero at hed
      simp at hed
      omega
    simp [hmiss]
  · have hne : d.enemy_miss = false := by
      cases hb : d.enemy_miss
      · rfl
      · rw [hb] at hed
        exact absurd rfl hed
    constructor
    · intro heq
      exfalso
      rw [hero_take_damage_hp'] at heq
      have h1l := hero_take_damage_one_le st.hero
        ((st.enemy.take_damage
          (st.hero.attack_enemy d.hero_crit d.hero_roll).1).2.attack_hero
          d.enemy_miss d.enemy_roll)
      omega
    · intro hm
      rw [hne] at hm
      exact Bool.noConfusion hm
  · have hne : d.enemy_miss = false := by
      cases hb : d.enemy_miss
      · rfl
      · rw [hb] at hed
        exact absurd rfl hed
    constructor
    · intro heq
      exfalso
      rw [hero_take_damage_hp'] at heq
      have h1l := hero_take_damage_one_le st.hero
        ((st.enemy.take_damage
          (st.hero.attack_enemy d.hero_crit d.hero_roll).1).2.attack_hero
          d.enemy_miss d.enemy_roll)
      omega
    · intro hm
      rw [hne] at hm
      exact Bool.noConfusion hm
  · exact absurd halive hal

/-- Claim C10.  For every derivable enemy (any hero level in `[1, 100]`, offset in
`[-2, 3]`, either mode), the derived attack is at least 18 and `maxHealth` at
least 88; a non-miss attack draw therefore deals raw damage at least 15 (so the
returned damage is 0 exactly on the miss draw), and inside a turn where the
enemy survives the hero's hit, the loop's `enemy_damage == 0` test leaves the
hero's health unchanged exactly on miss draws. -/
theorem enemy_attack_zero_iff_miss (lvl o : ℤ) (h : Bool)
    (h1 : 1 ≤ lvl) (h2 : lvl ≤ 100) (h3 : -2 ≤ o) (h4 : o ≤ 3) :
    (18 ≤ (mkEnemy lvl o h).attack ∧ 88 ≤ (mkEnemy lvl o h).max_hp) ∧
    (∀ (miss : Bool) (roll : ℤ), -3 ≤ roll → roll ≤ 8 →
      (miss = false → 15 ≤ (mkEnemy lvl o h).attack_hero miss roll) ∧
      ((mkEnemy lvl o h).attack_hero miss roll = 0 ↔ miss = true)) ∧
    (∀ (d : TurnDraws) (st : SimState), -3 ≤ d.enemy_roll → d.enemy_roll ≤ 8 →
      st.enemy.attack = (mkEnemy lvl o h).attack →
      (doTurn d st).enemy.is_alive →
      ((doTurn d st).hero.current_hp = st.hero.current_hp ↔ d.enemy_miss = true)) := by
  have hatk18 : 18 ≤ (mkEnemy lvl o h).attack := by
    rw [mkEnemy_attack]
    split_ifs <;> omega
  have hhp88 : 88 ≤ (mkEnemy lvl o h).max_hp := by
    rw [mkEnemy_max_hp]
    split_ifs <;> omega
  refine ⟨⟨hatk18, hhp88⟩, ?_, ?_⟩
  · intro miss roll hr1 hr2
    constructor
    · intro hm
      rw [hm]
      unfold Enemy.attack_hero
      simp only [Bool.false_eq_true, if_false]
      omega
    · cases miss
      · unfold Enemy.attack_hero
        simp only [Bool.false_eq_true, if_false]
        constructor
        · intro h0
          omega
        · intro habs
          exact habs.elim
      · unfold Enemy.attack_hero
        simp
  · intro d st hr1 hr2 hattack halive
    exact doTurn_hero_unchanged_iff d st (by omega) halive

/-- Witness for C1 at a concrete battle: level-1 Warrior, zero offset,
non-hardcore, the all-miss central-roll draw stream. -/
theorem battle_kill_victory_witness :
    (simulate_battle (mkHero "A" HeroClass.warrior 1 false) (mkEnemy 1 0 false)
      constDraws).2.turn_count < max_turns ∧
    ((simulate_battle (mkHero "A" HeroClass.warrior 1 false) (mkEnemy 1 0 false)
      constDraws).2.enemy.current_hp ≤ 0 →
      (simulate_battle (mkHero "A" HeroClass.warrior 1 false) (mkEnemy 1 0 false)
        constDraws).1 = true) ∧
    ((simulate_battle (mkHero "A" HeroClass.warrior 1 false) (mkEnemy 1 0 false)
      constDraws).1 = false →
      (simulate_battle (mkHero "A" HeroClass.warrior 1 false) (mkEnemy 1 0 false)
        constDraws).2.hero.current_hp ≤ 0) :=
  battle_kill_victory "A" HeroClass.warrior 1 0 false false constDraws
    (by norm_num) (by norm_num) (by norm_num) (by norm_num) constDraws_valid

/-- Witness for C2 at a concrete hero: level-50 Mage, hardcore. -/
theorem hero_stat_derivation_witness :
    ((mkHero "B" HeroClass.mage 50 true).max_hp = base_hp HeroClass.mage + 50 * 10 ∧
     (mkHero "B" HeroClass.mage 50 true).attack = base_attack HeroClass.mage + 50 * 2 ∧
     (mkHero "B" HeroClass.mage 50 true).defense = base_defense HeroClass.mage + 50 * 1 ∧
     (mkHero "B" HeroClass.mage 50 true).critical_chance =
       min (base_crit HeroClass.mage + (50 : ℚ) * 0.002) 0.75) ∧
    ((mkHero "Conan" HeroClass.warrior 1 false).max_hp = 160 ∧
     (mkHero "Conan" HeroClass.warrior 1 false).attack = 27 ∧
     (mkHero "Conan" HeroClass.warrior 1 false).defense = 21 ∧
     (mkHero "Conan" HeroClass.warrior 1 false).critical_chance = 0.152) :=
  hero_stat_derivation "B" HeroClass.mage 50 true (by norm_num) (by norm_num)

/-- Witness for C3 at a concrete enemy: hero level 50, offset 3, hardcore. -/
theorem enemy_stat_derivation_witness :
    ((mkEnemy 50 3 true).level = 50 + 3 ∧
     (mkEnemy 50 3 true).max_hp =
       ⌊((100 : ℚ) + ((50 + 3 : ℤ) : ℚ) * 12) * (if true then 1.5 else 1.0)⌋ ∧
     (mkEnemy 50 3 true).attack =
       ⌊((20 : ℚ) + ((50 + 3 : ℤ) : ℚ) * 2) * (if true then 1.5 else 1.0)⌋ ∧
     (mkEnemy 50 3 true).defense = 10 + (50 + 3)) ∧
    ((mkEnemy 1 (-2) true).level = -1 ∧ (mkEnemy 2 (-2) true).level = 0) :=
  enemy_stat_derivation 50 3 true (by norm_num) (by norm_num) (by norm_num) (by norm_num)

/-- Witness for C5: fuel 51 computes the same final state as fuel 50 on a
concrete battle, whose final turn count respects the ceiling. -/
theorem battle_terminates_witness :
    battleLoop constDraws 51 (initState someHero fullEnemy) =
      battleLoop constDraws max_turns (initState someHero fullEnemy) ∧
    (simulate_battle someHero fullEnemy constDraws).2.turn_count ≤ max_turns :=
  battle_terminates someHero fullEnemy constDraws 51 (by norm_num [max_turns])

/-- Witness for C6, realising the spec's concrete scenario: the enemy is forced
to 1 health, the hero's next hit (at least 1 damage) kills it, and the hero
object is untouched that turn — no enemy action happened. -/
theorem hero_strikes_first_witness :
    ¬ (doTurn missDraw (initState someHero lowEnemy)).enemy.is_alive ∧
    (doTurn missDraw (initState someHero lowEnemy)).hero =
      (initState someHero lowEnemy).hero :=
  ⟨by decide,
   ((hero_strikes_first missDraw (initState someHero lowEnemy)).2 (by decide)).1⟩

/-- Witness for the amended C8: each of the three validation outcomes at a
concrete input. -/
theorem validate_arguments_order_witness :
    validate_arguments 0 "Mage" = Except.error ValidationError.outOfRange ∧
    validate_arguments 5 "Dragon" = Except.error ValidationError.invalidClass ∧
    validate_arguments 5 "Mage" = Except.ok () :=
  ⟨(validate_arguments_order 0 "Mage").1 (by norm_num),
   (validate_arguments_order 5 "Dragon").2.1 (by norm_num) (by norm_num) (by decide),
   (validate_arguments_order 5 "Mage").2.2 (by norm_num) (by norm_num) (by decide)⟩

/-- Witness for C9 at a concrete hero: level-50 Mage. -/
theorem hardcore_hero_noninterference_witness :
    (mkHero "B" HeroClass.mage 50 true).max_hp = (mkHero "B" HeroClass.mage 50 false).max_hp ∧
    (mkHero "B" HeroClass.mage 50 true).current_hp =
      (mkHero "B" HeroClass.mage 50 false).current_hp ∧
    (mkHero "B" HeroClass.mage 50 true).attack = (mkHero "B" HeroClass.mage 50 false).attack ∧
    (mkHero "B" HeroClass.mage 50 true).defense =
      (mkHero "B" HeroClass.mage 50 false).defense ∧
    (mkHero "B" HeroClass.mage 50 true).critical_chance =
      (mkHero "B" HeroClass.mage 50 false).critical_chance :=
  hardcore_hero_noninterference "B" HeroClass.mage 50 (by norm_num) (by norm_num)

/-- Witness for C10 at the weakest derivable enemy: hero level 1, offset -2
(enemy level -1), non-hardcore. -/
theorem enemy_attack_zero_iff_miss_witness :
    (18 ≤ (mkEnemy 1 (-2) false).attack ∧ 88 ≤ (mkEnemy 1 (-2) false).max_hp) ∧
    (∀ (miss : Bool) (roll : ℤ), -3 ≤ roll → roll ≤ 8 →
      (miss = false → 15 ≤ (mkEnemy 1 (-2) false).attack_hero miss roll) ∧
      ((mkEnemy 1 (-2) false).attack_hero miss roll = 0 ↔ miss = true)) ∧
    (∀ (d : TurnDraws) (st : SimState), -3 ≤ d.enemy_roll → d.enemy_roll ≤ 8 →
      st.enemy.attack = (mkEnemy 1 (-2) false).attack →
      (doTurn d st).enemy.is_alive →
      ((doTurn d st).hero.current_hp = st.hero.current_hp ↔ d.enemy_miss = true)) :=
  enemy_attack_zero_iff_miss 1 (-2) false
    (by norm_num) (by norm_num) (by norm_num) (by norm_num)
